import Mathlib

/-!
Verification of the turn-routing core of the multi-language voice translator
(`multi_language_translator_auto.py`).

The embedding mirrors the source file:
* the static tables `LANGUAGE_PAIRS`, `LANG_FRIENDLY`, `GTTS_MAP`,
  `WHISPER_LANG_NORMALIZE` are embedded as association lists, and Python's
  `dict.get(key, default)` becomes `dictGet`;
* `transcribe_and_detect` keeps only its pure post-processing (strip the
  recognized text, normalize the raw language tag); the Whisper model call is an
  external input;
* the direction decision of the `if start:` pipeline (lines 221-233) is
  `resolveDirection`; the whole per-turn pipeline (record → transcribe →
  route → translate → log → synthesize inside one `try/except`) is `runTurn`,
  with the translation and speech-synthesis adapters passed in as functions
  returning `Option` (`none` models the adapter raising, which the
  catch-all `except` turns into an error message and an abandoned turn);
* `st.session_state.history` is the explicit `List Turn` state threaded
  through `add_turn` / `render_history` / `clear_history`.
-/

namespace MultiLangTranslator

/-- A logged conversation turn: the dict appended by `add_turn`. -/
structure Turn where
  time : String
  src_lang : String
  tgt_lang : String
  src_text : String
  tgt_text : String
  detected_raw : String
deriving DecidableEq

/-- `LANGUAGE_PAIRS` (lines 35-40): display label ↦ the two member codes. -/
def LANGUAGE_PAIRS : List (String × String × String) :=
  [("English ↔ Arabic", "en", "ar"),
   ("English ↔ Sinhala", "en", "si"),
   ("English ↔ Filipino (Tagalog)", "en", "tl"),
   ("English ↔ Hindi", "en", "hi")]

/-- `LANG_FRIENDLY` (lines 43-49): code ↦ human-readable name. -/
def LANG_FRIENDLY : List (String × String) :=
  [("en", "English"),
   ("ar", "Arabic"),
   ("si", "Sinhala"),
   ("tl", "Filipino"),
   ("hi", "Hindi")]

/-- `GTTS_MAP` (lines 52-58): code ↦ gTTS-compatible code. -/
def GTTS_MAP : List (String × String) :=
  [("en", "en"),
   ("ar", "ar"),
   ("si", "si"),
   ("tl", "tl"),
   ("hi", "hi")]

/-- `WHISPER_LANG_NORMALIZE` (lines 61-68): raw Whisper tag ↦ canonical code. -/
def WHISPER_LANG_NORMALIZE : List (String × String) :=
  [("en", "en"),
   ("ar", "ar"),
   ("si", "si"),
   ("tl", "tl"),
   ("fil", "tl"),
   ("hi", "hi")]

/-- Python's `table.get(key, default)` on a string-keyed dict. -/
def dictGet (table : List (String × String)) (key default : String) : String :=
  (table.lookup key).getD default

/-- `WHISPER_LANG_NORMALIZE.get(lang_raw, lang_raw)` (line 94). -/
def whisperNormalize (lang_raw : String) : String :=
  dictGet WHISPER_LANG_NORMALIZE lang_raw lang_raw

/-- `GTTS_MAP.get(tgt_lang, "en")` (line 250). -/
def gttsLookup (tgt_lang : String) : String :=
  dictGet GTTS_MAP tgt_lang "en"

/-- `LANG_FRIENDLY.get(code, code)` (lines 147, 153). -/
def langFriendly (code : String) : String :=
  dictGet LANG_FRIENDLY code code

/-- Python's `str.strip()`: drop leading and trailing whitespace. (Embedded
over the character list so it evaluates in the kernel.) -/
def pyStrip (s : String) : String :=
  String.mk (((s.data.dropWhile Char.isWhitespace).reverse.dropWhile
    Char.isWhitespace).reverse)

/-- Pure part of `transcribe_and_detect` (lines 86-95): given the text and raw
language tag produced by the Whisper model, strip the text and normalize the
tag, returning `(recognized_text, detected_raw, detected_norm)`. -/
def transcribe_and_detect (whisperText whisperLang : String) :
    String × String × String :=
  (pyStrip whisperText, whisperLang, whisperNormalize whisperLang)

/-- The direction decision of the pipeline (lines 221-233): given the selected
pair `(lang_a, lang_b)` and the normalized detected code, return
`some (src_lang, tgt_lang)` or `none` (the branch that sets both to `None`
after reporting the detected language is not part of the pair). -/
def resolveDirection (lang_a lang_b detected_norm : String) :
    Option (String × String) :=
  if detected_norm = lang_a then some (lang_a, lang_b)
  else if detected_norm = lang_b then some (lang_b, lang_a)
  else none

/-- `add_turn` (lines 117-128): append one turn dict to the history list.
`now` stands for `datetime.now().strftime(...)`. -/
def add_turn (history : List Turn)
    (src_lang tgt_lang src_text tgt_text detected_raw now : String) :
    List Turn :=
  history ++ [⟨now, src_lang, tgt_lang, src_text, tgt_text, detected_raw⟩]

/-- The order in which `render_history` (lines 131-155) visits the turns:
`st.session_state.history[::-1]`, i.e. the reversed list (Python slicing
copies; the stored list is untouched). -/
def render_history (history : List Turn) : List Turn :=
  history.reverse

/-- The Clear History handler (line 196): `st.session_state.history = []`,
whatever the previous content was. -/
def clear_history (_history : List Turn) : List Turn :=
  []

/-- Terminal outcome of one press of Start Recording. -/
inductive TurnOutcome where
  /-- `recognized_text` was empty: "Could not detect any speech." (line 212). -/
  | noSpeech
  /-- Detected language outside the selected pair (lines 228-233). -/
  | rejected (detected : String)
  /-- The `if src_lang and tgt_lang` guard (line 235) was falsy without the
  rejection branch having run, i.e. a pair member was the empty string. -/
  | skipped
  /-- `translate_text` raised; caught by the `except` (lines 254-255). -/
  | translateFailed
  /-- `text_to_speech` raised after the turn was logged (lines 249-255). -/
  | synthFailed
  /-- Full pipeline success. -/
  | done
deriving DecidableEq

/-- One full `if start:` pipeline run (lines 201-255) after the audio has been
recorded and transcribed. `translate` models `translate_text` and `synthesize`
models `text_to_speech`; each returns `none` when the underlying service
raises, in which case control jumps to the catch-all `except` handler.
Returns the history list after the run together with the outcome. -/
def runTurn (translate : String → String → String → Option String)
    (synthesize : String → String → Option String)
    (lang_a lang_b : String) (history : List Turn)
    (now whisperText whisperLang : String) : List Turn × TurnOutcome :=
  let tr := transcribe_and_detect whisperText whisperLang
  let recognized_text := tr.1
  let detected_raw := tr.2.1
  let detected_norm := tr.2.2
  if recognized_text = "" then
    (history, TurnOutcome.noSpeech)
  else
    match resolveDirection lang_a lang_b detected_norm with
    | none => (history, TurnOutcome.rejected detected_norm)
    | some (src_lang, tgt_lang) =>
      if src_lang ≠ "" ∧ tgt_lang ≠ "" then
        match translate recognized_text src_lang tgt_lang with
        | none => (history, TurnOutcome.translateFailed)
        | some translated =>
          let history' :=
            add_turn history src_lang tgt_lang recognized_text translated
              detected_raw now
          match synthesize translated (gttsLookup tgt_lang) with
          | none => (history', TurnOutcome.synthFailed)
          | some _ => (history', TurnOutcome.done)
      else
        (history, TurnOutcome.skipped)

/-! ## Theorems -/

/-- Claim C1: for every selected pair `(lang_a, lang_b)` with `lang_a ≠ lang_b`
and every raw detected tag, exactly one of three outcomes occurs: the
normalized tag equals `lang_a` and the resolved direction is `lang_a → lang_b`;
it equals `lang_b` and the direction is `lang_b → lang_a`; or it equals neither
and the turn is rejected (`resolveDirection` returns `none`). The three
disjuncts are pairwise exclusive by their equality/disequality conjuncts. -/
theorem direction_trichotomy (lang_a lang_b raw : String)
    (hab : lang_a ≠ lang_b) :
    (whisperNormalize raw = lang_a ∧ whisperNormalize raw ≠ lang_b ∧
      resolveDirection lang_a lang_b (whisperNormalize raw) =
        some (lang_a, lang_b)) ∨
    (whisperNormalize raw ≠ lang_a ∧ whisperNormalize raw = lang_b ∧
      resolveDirection lang_a lang_b (whisperNormalize raw) =
        some (lang_b, lang_a)) ∨
    (whisperNormalize raw ≠ lang_a ∧ whisperNormalize raw ≠ lang_b ∧
      resolveDirection lang_a lang_b (whisperNormalize raw) = none) := by
  by_cases h1 : whisperNormalize raw = lang_a
  · refine Or.inl ⟨h1, ?_, by simp [resolveDirection, h1]⟩
    intro h2
    exact hab (h1.symm.trans h2)
  · by_cases h2 : whisperNormalize raw = lang_b
    · exact Or.inr (Or.inl ⟨h1, h2,
        by simp [resolveDirection, h1, h2, Ne.symm hab]⟩)
    · exact Or.inr (Or.inr ⟨h1, h2, by simp [resolveDirection, h1, h2]⟩)

/-- Witness for `direction_trichotomy` at the pair ("en", "tl") and raw tag
"fil". -/
theorem direction_trichotomy_witness :
    ("en" : String) ≠ "tl" ∧
    ((whisperNormalize "fil" = "en" ∧ whisperNormalize "fil" ≠ "tl" ∧
        resolveDirection "en" "tl" (whisperNormalize "fil") =
          some ("en", "tl")) ∨
     (whisperNormalize "fil" ≠ "en" ∧ whisperNormalize "fil" = "tl" ∧
        resolveDirection "en" "tl" (whisperNormalize "fil") =
          some ("tl", "en")) ∨
     (whisperNormalize "fil" ≠ "en" ∧ whisperNormalize "fil" ≠ "tl" ∧
        resolveDirection "en" "tl" (whisperNormalize "fil") = none)) :=
  ⟨by decide, direction_trichotomy "en" "tl" "fil" (by decide)⟩

/-- Claim C2: normalization is a total function on strings (it is a Lean
function `String → String`, so it is defined — and raises nothing — on every
input): when the input is a key of `WHISPER_LANG_NORMALIZE` the mapped
canonical code is returned (in particular "fil" maps to "tl"), and otherwise
the input itself is returned unchanged. -/
theorem normalize_table_or_identity :
    whisperNormalize "fil" = "tl" ∧
    (∀ s v, WHISPER_LANG_NORMALIZE.lookup s = some v →
      whisperNormalize s = v) ∧
    (∀ s, WHISPER_LANG_NORMALIZE.lookup s = none → whisperNormalize s = s) := by
  refine ⟨by decide, ?_, ?_⟩
  · intro s v h
    simp [whisperNormalize, dictGet, h]
  · intro s h
    simp [whisperNormalize, dictGet, h]

/-- Witness for `normalize_table_or_identity` at the mapped key "fil" and the
unmapped string "xx". -/
theorem normalize_table_or_identity_witness :
    whisperNormalize "fil" = "tl" ∧ whisperNormalize "xx" = "xx" :=
  ⟨normalize_table_or_identity.2.1 "fil" "tl" (by decide),
   normalize_table_or_identity.2.2 "xx" (by decide)⟩

/-- Claim C3: when speech was recognized but the normalized detected language
matches neither member of the selected pair, the pipeline ends in
`rejected` and the history list is returned exactly as it was: no turn is
appended and no existing turn is modified. -/
theorem reject_leaves_log
    (translate : String → String → String → Option String)
    (synthesize : String → String → Option String)
    (lang_a lang_b : String) (history : List Turn)
    (now wtext wlang : String)
    (htext : pyStrip wtext ≠ "")
    (ha : whisperNormalize wlang ≠ lang_a)
    (hb : whisperNormalize wlang ≠ lang_b) :
    runTurn translate synthesize lang_a lang_b history now wtext wlang =
      (history, TurnOutcome.rejected (whisperNormalize wlang)) := by
  simp [runTurn, transcribe_and_detect, resolveDirection, htext, ha, hb]

/-- Witness for `reject_leaves_log`: pair ("en", "ar"), detected tag "fr". -/
theorem reject_leaves_log_witness :
    runTurn (fun _ _ _ => some "x") (fun _ _ => some "y") "en" "ar" []
        "10:00:00" "bonjour" "fr" =
      ([], TurnOutcome.rejected (whisperNormalize "fr")) :=
  reject_leaves_log (fun _ _ _ => some "x") (fun _ _ => some "y") "en" "ar"
    [] "10:00:00" "bonjour" "fr" (by decide) (by decide) (by decide)

/-- Claim C4: if the translation adapter fails (outcome `translateFailed`,
i.e. `translate_text` raised and the catch-all handler ran before `add_turn`),
the history after the attempt equals the history before it; and every
successful turn (outcome `done` or `synthFailed`, the two outcomes past the
`add_turn` call) appends exactly one entry, so the length grows by exactly 1. -/
theorem turn_log_delta
    (translate : String → String → String → Option String)
    (synthesize : String → String → Option String)
    (lang_a lang_b : String) (history : List Turn)
    (now wtext wlang : String) :
    ((runTurn translate synthesize lang_a lang_b history now wtext wlang).2 =
        TurnOutcome.translateFailed →
      (runTurn translate synthesize lang_a lang_b history now wtext
          wlang).1 = history) ∧
    (((runTurn translate synthesize lang_a lang_b history now wtext
          wlang).2 = TurnOutcome.done ∨
      (runTurn translate synthesize lang_a lang_b history now wtext
          wlang).2 = TurnOutcome.synthFailed) →
      ∃ t : Turn,
        (runTurn translate synthesize lang_a lang_b history now wtext
            wlang).1 = history ++ [t] ∧
        (runTurn translate synthesize lang_a lang_b history now wtext
            wlang).1.length = history.length + 1) := by
  by_cases h0 : pyStrip wtext = ""
  · simp [runTurn, transcribe_and_detect, h0]
  · rcases hdir :
        resolveDirection lang_a lang_b (whisperNormalize wlang) with
      _ | ⟨src, tgt⟩
    · simp [runTurn, transcribe_and_detect, h0, hdir]
    · by_cases hg : src ≠ "" ∧ tgt ≠ ""
      · rcases htr : translate (pyStrip wtext) src tgt with _ | translated
        · simp [runTurn, transcribe_and_detect, h0, hdir, hg, htr]
        · rcases hsy : synthesize translated (gttsLookup tgt) with _ | audio <;>
            simp [runTurn, transcribe_and_detect, h0, hdir, hg, htr, hsy,
              add_turn]
      · simp [runTurn, transcribe_and_detect, h0, hdir, hg]

/-- Witness for `turn_log_delta`: a failing translator leaves the empty log
empty; a succeeding translator grows it to one entry. -/
theorem turn_log_delta_witness :
    (runTurn (fun _ _ _ => none) (fun _ _ => some "a") "en" "hi" []
        "10:00:00" "Namaste" "hi").1 = [] ∧
    ∃ t : Turn,
      (runTurn (fun _ _ _ => some "Hello") (fun _ _ => some "a") "en" "hi"
          [] "10:00:00" "Namaste" "hi").1 = [] ++ [t] ∧
      (runTurn (fun _ _ _ => some "Hello") (fun _ _ => some "a") "en" "hi"
          [] "10:00:00" "Namaste" "hi").1.length =
        ([] : List Turn).length + 1 :=
  ⟨(turn_log_delta (fun _ _ _ => none) (fun _ _ => some "a") "en" "hi" []
      "10:00:00" "Namaste" "hi").1 (by decide),
   (turn_log_delta (fun _ _ _ => some "Hello") (fun _ _ => some "a") "en"
      "hi" [] "10:00:00" "Namaste" "hi").2 (Or.inl (by decide))⟩

/-- Claim C5: the history a run produces does not depend on the
speech-synthesis adapter at all (first conjunct, comparing the same run under
two arbitrary synthesizers), and when synthesis fails after a successful
translation (outcome `synthFailed`), the turn appended by `add_turn` stands:
the final history is exactly the prior history plus that one turn, so the
logged turn is neither retracted nor altered. -/
theorem synth_failure_keeps_turn
    (translate : String → String → String → Option String)
    (synth1 synth2 : String → String → Option String)
    (lang_a lang_b : String) (history : List Turn)
    (now wtext wlang : String) :
    (runTurn translate synth1 lang_a lang_b history now wtext wlang).1 =
      (runTurn translate synth2 lang_a lang_b history now wtext wlang).1 ∧
    ((runTurn translate synth1 lang_a lang_b history now wtext wlang).2 =
        TurnOutcome.synthFailed →
      ∃ t : Turn,
        (runTurn translate synth1 lang_a lang_b history now wtext
            wlang).1 = history ++ [t]) := by
  by_cases h0 : pyStrip wtext = ""
  · simp [runTurn, transcribe_and_detect, h0]
  · rcases hdir :
        resolveDirection lang_a lang_b (whisperNormalize wlang) with
      _ | ⟨src, tgt⟩
    · simp [runTurn, transcribe_and_detect, h0, hdir]
    · by_cases hg : src ≠ "" ∧ tgt ≠ ""
      · rcases htr : translate (pyStrip wtext) src tgt with _ | translated
        · simp [runTurn, transcribe_and_detect, h0, hdir, hg, htr]
        · rcases hsy1 : synth1 translated (gttsLookup tgt) with _ | a1 <;>
          rcases hsy2 : synth2 translated (gttsLookup tgt) with _ | a2 <;>
            simp [runTurn, transcribe_and_detect, h0, hdir, hg, htr, hsy1,
              hsy2, add_turn]
      · simp [runTurn, transcribe_and_detect, h0, hdir, hg]

/-- Witness for `synth_failure_keeps_turn`: with a failing synthesizer the
turn is still in the log. -/
theorem synth_failure_keeps_turn_witness :
    ∃ t : Turn,
      (runTurn (fun _ _ _ => some "Hello") (fun _ _ => none) "en" "hi" []
          "10:00:00" "Namaste" "hi").1 = [] ++ [t] :=
  (synth_failure_keeps_turn (fun _ _ _ => some "Hello") (fun _ _ => none)
    (fun _ _ => some "a") "en" "hi" [] "10:00:00" "Namaste" "hi").2
    (by decide)

/-- Claim C6: `render_history` visits the turns in exact reverse insertion
order: appending a turn via `add_turn` puts it first in the rendered
sequence for every prior history (so after T1, T2, T3 the order is
T3, T2, T1), and rendering loses nothing of the stored sequence (reversing
the rendered list gives back the stored list unchanged; the Python slice
`history[::-1]` copies and never mutates). -/
theorem render_newest_first (history : List Turn) (t t1 t2 t3 : Turn) :
    render_history
        (add_turn history t.src_lang t.tgt_lang t.src_text t.tgt_text
          t.detected_raw t.time) =
      t :: render_history history ∧
    render_history
        (add_turn
          (add_turn
            (add_turn [] t1.src_lang t1.tgt_lang t1.src_text t1.tgt_text
              t1.detected_raw t1.time)
            t2.src_lang t2.tgt_lang t2.src_text t2.tgt_text t2.detected_raw
            t2.time)
          t3.src_lang t3.tgt_lang t3.src_text t3.tgt_text t3.detected_raw
          t3.time) = [t3, t2, t1] ∧
    (render_history history).reverse = history := by
  refine ⟨?_, ?_, ?_⟩ <;> simp [render_history, add_turn]

/-- Claim C7: the Clear History handler empties the log whatever it held, and
rendering afterwards produces no turns. -/
theorem clear_then_render_empty (history : List Turn) :
    clear_history history = [] ∧
    render_history (clear_history history) = [] :=
  ⟨rfl, rfl⟩

/-- Claim C8: there are exactly four configured pairs, and every pair
`(a, b)` in `LANGUAGE_PAIRS` has `a ≠ b` with both member codes present as
keys of the display-name table `LANG_FRIENDLY`, the TTS table `GTTS_MAP` and
the normalization table `WHISPER_LANG_NORMALIZE`. -/
theorem pairs_wellformed :
    LANGUAGE_PAIRS.length = 4 ∧
    ∀ p ∈ LANGUAGE_PAIRS,
      p.2.1 ≠ p.2.2 ∧
      (LANG_FRIENDLY.lookup p.2.1).isSome ∧
      (LANG_FRIENDLY.lookup p.2.2).isSome ∧
      (GTTS_MAP.lookup p.2.1).isSome ∧
      (GTTS_MAP.lookup p.2.2).isSome ∧
      (WHISPER_LANG_NORMALIZE.lookup p.2.1).isSome ∧
      (WHISPER_LANG_NORMALIZE.lookup p.2.2).isSome := by
  decide

/-- Witness for `pairs_wellformed` at the first configured pair. -/
theorem pairs_wellformed_witness :
    ("en" : String) ≠ "ar" ∧
    (LANG_FRIENDLY.lookup "en").isSome ∧
    (LANG_FRIENDLY.lookup "ar").isSome ∧
    (GTTS_MAP.lookup "en").isSome ∧
    (GTTS_MAP.lookup "ar").isSome ∧
    (WHISPER_LANG_NORMALIZE.lookup "en").isSome ∧
    (WHISPER_LANG_NORMALIZE.lookup "ar").isSome :=
  pairs_wellformed.2 ("English ↔ Arabic", "en", "ar") (by decide)

/-- Every output of `whisperNormalize` is either the input itself (identity
fallback) or one of the five canonical codes appearing as values of the
table. -/
theorem whisperNormalize_self_or_canonical (s : String) :
    whisperNormalize s = s ∨
      whisperNormalize s ∈ ["en", "ar", "si", "tl", "hi"] := by
  unfold whisperNormalize dictGet WHISPER_LANG_NORMALIZE
  simp only [List.lookup]
  repeat' split
  all_goals simp_all

/-- Claim C9: normalization is idempotent: every value of the table is itself
a fixed point of the table and unmapped strings map to themselves, so
normalizing twice equals normalizing once, for every input string. -/
theorem normalize_idempotent (s : String) :
    whisperNormalize (whisperNormalize s) = whisperNormalize s := by
  rcases whisperNormalize_self_or_canonical s with h | h
  · rw [h]
    exact h
  · simp only [List.mem_cons, List.not_mem_nil, or_false] at h
    rcases h with h | h | h | h | h <;> rw [h] <;> decide

/-- Claim C10: the code handed to `text_to_speech` is
`GTTS_MAP.get(tgt_lang, "en")`; on every member code of every configured pair
this lookup is the identity, and on any code absent from `GTTS_MAP` it
silently falls back to "en". -/
theorem gtts_identity_on_registry :
    (∀ p ∈ LANGUAGE_PAIRS,
      gttsLookup p.2.1 = p.2.1 ∧ gttsLookup p.2.2 = p.2.2) ∧
    (∀ s, GTTS_MAP.lookup s = none → gttsLookup s = "en") := by
  refine ⟨by decide, ?_⟩
  intro s h
  simp [gttsLookup, dictGet, h]

/-- Witness for `gtts_identity_on_registry` at the pair ("en", "ar") and the
unmapped code "fr". -/
theorem gtts_identity_on_registry_witness :
    (gttsLookup "en" = "en" ∧ gttsLookup "ar" = "ar") ∧
    gttsLookup "fr" = "en" :=
  ⟨gtts_identity_on_registry.1 ("English ↔ Arabic", "en", "ar") (by decide),
   gtts_identity_on_registry.2 "fr" (by decide)⟩

end MultiLangTranslator
